import Mathlib

/-!
Verification of the puffer 3D-printer control core.

The definitions below are a shallow embedding of the Python source:

* `src/main.py` — `PrinterControlApp.read_response`
* `src/utils/gcode_utils.py` — `send_gcode`, `parse_gcode_response`
* `src/ui/base_tab.py` — `BaseTab.send_and_receive_gcode`
* `src/ui/connection_tab.py` — `ConnectionTab.connect_to_printer`,
  the key/value classification loop of `ConnectionTab.refresh_treeview`
* `src/ui/extrusion_calibration_tab.py` — `check_hotend_temperature`,
  `extrude_length`, `heat_hotend`, `adjust_extrusion_factor`

Serial transport reads are modelled as a finite list of `ReadEvent`s
(a decoded line, an I/O error, or undecodable bytes); user-supplied
floats and printer temperatures are modelled as rationals (all the
arithmetic the source performs on the concrete values of interest is
exact in IEEE double precision, so `ℚ` is a faithful carrier).
-/

namespace Puffer

/-- Boolean test that `p` is an initial segment of `cs` (character lists). -/
def startsWithList : List Char → List Char → Bool
  | [], _ => true
  | _ :: _, [] => false
  | p :: ps, c :: cs => p == c && startsWithList ps cs

/-- Boolean substring containment on character lists, mirroring Python's
`pat in s`. -/
def containsList (pat : List Char) : List Char → Bool
  | [] => startsWithList pat []
  | c :: cs => startsWithList pat (c :: cs) || containsList pat cs

/-- Python's `pat in s` for strings. -/
def strHasSub (s pat : String) : Bool :=
  containsList pat.data s.data

/-- Drop leading whitespace characters. -/
def dropLeadingWs : List Char → List Char
  | [] => []
  | c :: cs => if c.isWhitespace then dropLeadingWs cs else c :: cs

/-- Python's `str.strip()` (whitespace removed from both ends; the
printer protocol is ASCII, where Lean's `Char.isWhitespace` and Python's
notion of whitespace agree). -/
def pyStrip (s : String) : String :=
  String.mk (dropLeadingWs ((dropLeadingWs s.data.reverse).reverse))

/-- Python's `str.lower()` (ASCII). -/
def pyLower (s : String) : String :=
  String.mk (s.data.map Char.toLower)

/-- Terminal-line test of `read_response` (src/main.py line 131):
`"ok" in line.lower() or "error" in line.lower()`. -/
def isTerminal (line : String) : Bool :=
  strHasSub (pyLower line) "ok" || strHasSub (pyLower line) "error"

/-- One result of `serial_connection.readline().decode(...)`:
either bytes that decode to the string `s` (before stripping), a
transport-level read failure (`serial.SerialException`), or bytes that
fail to decode (`UnicodeDecodeError`). -/
inductive ReadEvent where
  | line (s : String)
  | readErr
  | badBytes
deriving DecidableEq, Repr

/-- Outcome of `PrinterControlApp.read_response`: a returned list of
lines, or an uncaught decoding exception propagating to the caller. -/
inductive RecvOutcome where
  | ok (lines : List String)
  | decodeError
deriving DecidableEq, Repr

/-- Loop body of `read_response` (src/main.py lines 126-136): strip each
decoded line, append it if non-empty, stop at the first terminal line;
a `SerialException` is caught and the lines collected so far returned;
a `UnicodeDecodeError` is not caught and propagates.  The result is
`none` when the event list is exhausted without the loop returning
(the source loop would still be running: `while True` never exits on
its own). -/
def readResponseGo : List ReadEvent → List String → Option RecvOutcome
  | [], _ => none
  | ReadEvent.readErr :: _, acc => some (RecvOutcome.ok acc.reverse)
  | ReadEvent.badBytes :: _, _ => some RecvOutcome.decodeError
  | ReadEvent.line s :: rest, acc =>
      let l := pyStrip s
      let acc' := if l = "" then acc else l :: acc
      if isTerminal l then some (RecvOutcome.ok acc'.reverse)
      else readResponseGo rest acc'

/-- `PrinterControlApp.read_response` (src/main.py lines 107-137).  The
connection is `none` when no serial connection is open (the source
returns `[]` at once), otherwise it carries the pending transport
events. -/
def read_response (conn : Option (List ReadEvent)) : Option RecvOutcome :=
  match conn with
  | none => some (RecvOutcome.ok [])
  | some evs => readResponseGo evs []

/-- Outcome of `parse_gcode_response`: a returned list of lines, or an
exception (decode or I/O — the function has no handler) propagating to
the caller. -/
inductive DrainOutcome where
  | ok (lines : List String)
  | raised
deriving DecidableEq, Repr

/-- Loop body of `parse_gcode_response` (src/utils/gcode_utils.py lines
54-56): while data is buffered, read a line, strip it and append it —
unconditionally, with no emptiness filter and no terminal-line test. -/
def parseGo : List ReadEvent → List String → DrainOutcome
  | [], acc => DrainOutcome.ok acc.reverse
  | ReadEvent.line s :: rest, acc => parseGo rest (pyStrip s :: acc)
  | ReadEvent.readErr :: _, _ => DrainOutcome.raised
  | ReadEvent.badBytes :: _, _ => DrainOutcome.raised

/-- `parse_gcode_response` (src/utils/gcode_utils.py lines 33-57): drain
the buffered events; `none` (no open connection) yields the empty
response. -/
def parse_gcode_response (conn : Option (List ReadEvent)) : DrainOutcome :=
  match conn with
  | none => DrainOutcome.ok []
  | some buf => parseGo buf []

/-- Marker scan of `BaseTab.send_and_receive_gcode` (src/ui/base_tab.py
lines 85-89): return the first response line containing the marker,
else `None`. -/
def findMarkerLine (marker : String) : List String → Option String
  | [] => none
  | l :: ls => if strHasSub l marker then some l else findMarkerLine marker ls

/-- Result of `send_and_receive_gcode`: the scan result, or a propagated
exception from the drain. -/
inductive QueryResult where
  | ok (found : Option String)
  | raised
deriving DecidableEq, Repr

/-- `BaseTab.send_and_receive_gcode` (src/ui/base_tab.py lines 73-89):
send the G-code, drain the buffered reply, and return the first line
containing `marker` (or `None`).  The sent command has no effect on the
modelled buffer, so only the drain and scan are represented. -/
def send_and_receive_gcode (conn : Option (List ReadEvent)) (marker : String) :
    QueryResult :=
  match parse_gcode_response conn with
  | DrainOutcome.ok lines => QueryResult.ok (findMarkerLine marker lines)
  | DrainOutcome.raised => QueryResult.raised

/-- `ExtrusionCalibrationTab.check_hotend_temperature`
(src/ui/extrusion_calibration_tab.py lines 104-108):
`send_and_receive_gcode("M105", "T:")` — note the source returns the
whole matching line, not a parsed number. -/
def check_hotend_temperature (conn : Option (List ReadEvent)) : QueryResult :=
  send_and_receive_gcode conn "T:"

/-- Split `cs` at the first occurrence of `sep`: Python's
`s.split(sep, 1)` when `sep` occurs (`none` when it does not). -/
def splitFirstAux (sep : Char) : List Char → Option (List Char × List Char)
  | [] => none
  | c :: cs =>
      if c = sep then some ([], cs)
      else
        match splitFirstAux sep cs with
        | some (l, r) => some (c :: l, r)
        | none => none

/-- Key/value classification loop of `ConnectionTab.refresh_treeview`
(src/ui/connection_tab.py lines 180-189): if the line contains ":",
split on the first ":" and strip both sides; else if it contains "=",
split on the first "=" and strip both sides; else the whole line is the
key with an empty value. -/
def classifyLine (line : String) : String × String :=
  if strHasSub line ":" then
    match splitFirstAux ':' line.data with
    | some (k, v) => (pyStrip (String.mk k), pyStrip (String.mk v))
    | none => (line, "")
  else if strHasSub line "=" then
    match splitFirstAux '=' line.data with
    | some (k, v) => (pyStrip (String.mk k), pyStrip (String.mk v))
    | none => (line, "")
  else (line, "")

/-- `send_gcode` (src/utils/gcode_utils.py lines 8-30).  Result: the
byte string written to the stream (if any) and the message given to the
callback (if any).  The source writes `f"{gcode.strip()}\n"` and, when a
callback is attached, calls it with `f"Sent: {gcode}"` (unstripped);
with no open connection it does nothing. -/
def send_gcode (connected : Bool) (gcode : String) (hasCallback : Bool) :
    Option String × Option String :=
  if connected then
    (some (pyStrip gcode ++ "\n"),
     if hasCallback then some ("Sent: " ++ gcode) else none)
  else (none, none)

/-- Result of `ConnectionTab.connect_to_printer`, recording which ports
were attempted so the stop-at-first-success behaviour is observable. -/
inductive ConnectResult where
  | noPortsFound
  | connected (port : String) (attempted : List String)
  | allPortsFailed (attempted : List String)
deriving DecidableEq, Repr

/-- Port-iteration loop of `connect_to_printer`
(src/ui/connection_tab.py lines 108-130): try each port in order; on
the first successful open, stop (the source `break`s); if the loop
falls through, every port failed. -/
def connectLoop (opens : String → Bool) : List String → List String → ConnectResult
  | [], tried => ConnectResult.allPortsFailed tried.reverse
  | p :: ps, tried =>
      if opens p then ConnectResult.connected p (tried.reverse ++ [p])
      else connectLoop opens ps (p :: tried)

/-- `ConnectionTab.connect_to_printer` (src/ui/connection_tab.py lines
93-130): with no candidate ports, fail at once; otherwise iterate the
candidates in order.  `opens p` models whether `serial.Serial(p, ...)`
succeeds for port `p`. -/
def connect_to_printer (ports : List String) (opens : String → Bool) :
    ConnectResult :=
  match ports with
  | [] => ConnectResult.noPortsFound
  | _ :: _ => connectLoop opens ports []

/-- Wire commands sent by the calibration workflow.  `m104s t` is
`"M104 S{t}"`, `g1ef e f` is `"G1 E{e} F{f}"`, `m92e v` is
`"M92 E{v:.2f}"` carrying the exact (unrounded) value; its 2-decimal
rendering is `renderM92`. -/
inductive Cmd where
  | m105
  | m302
  | m500
  | m503
  | m104s (t : ℚ)
  | g1ef (e : ℚ) (f : ℚ)
  | m92e (v : ℚ)
deriving DecidableEq, Repr

/-- Python's `f"{q:.2f}"` for non-negative values: round to a whole
number of hundredths and print with exactly two fractional digits.
(Python rounds the underlying binary double half-to-even; this model
rounds half-up, and the two agree everywhere the source is evaluated in
this development — all values are exact multiples of 1/100.)
`natFmt2` prints a value already scaled to whole hundredths. -/
def natFmt2 (c : ℕ) : String :=
  toString (c / 100) ++ "." ++
    (if c % 100 < 10 then "0" ++ toString (c % 100) else toString (c % 100))

/-- Scale to hundredths, round, and print via `natFmt2`. -/
def fmt2 (q : ℚ) : String :=
  natFmt2 (Int.floor (q * 100 + 1 / 2)).toNat

/-- Rendering of the `"M92 E{new_steps:.2f}"` command string
(src/ui/extrusion_calibration_tab.py lines 188-192). -/
def renderM92 (v : ℚ) : String :=
  "M92 E" ++ fmt2 v

/-- `ExtrusionCalibrationTab.heat_hotend` polling loop
(src/ui/extrusion_calibration_tab.py lines 166-172): each second read a
temperature; exit only when a reading is available (`is not None`) and
`>= 210`.  `readings` is the stream of poll results; the value is the
index of the poll at which the loop exits, or `none` when the stream is
exhausted without that happening (the source loop would still be
spinning — a printer that never reaches 210 blocks forever). -/
def heat_hotend : List (Option ℚ) → Option ℕ
  | [] => none
  | some t :: rest =>
      if t ≥ 210 then some 0 else (heat_hotend rest).map (· + 1)
  | none :: rest => (heat_hotend rest).map (· + 1)

/-- Outcome of `ExtrusionCalibrationTab.extrude_length`.
`invalidMeasurement` is the caught `ValueError("You must extrude at
least 10mm.")`, `tempUnavailable` the caught `ValueError("Failed to
read hotend temperature.")`. -/
inductive ExtrudeOutcome where
  | noConnection
  | invalidMeasurement
  | tempUnavailable
  | extruded (len : ℚ)
deriving DecidableEq, Repr

/-- `ExtrusionCalibrationTab.extrude_length`
(src/ui/extrusion_calibration_tab.py lines 110-158), paired with the
list of commands it sends.  `gateTemp` is the numeric reading of the
initial temperature gate and `heatReadings` the stream of readings seen
by `heat_hotend` (the source's temperature readings, as numbers — their
extraction from the M105 reply is modelled separately and is where the
source deviates from the spec; see `check_hotend_temperature`).  The
result is `none` when the heating loop never exits. -/
def extrude_length (connected : Bool) (init rem : ℚ) (gateTemp : Option ℚ)
    (heatReadings : List (Option ℚ)) : Option (ExtrudeOutcome × List Cmd) :=
  if connected then
    let len := init - rem
    if len < 10 then some (ExtrudeOutcome.invalidMeasurement, [])
    else
      match gateTemp with
      | none => some (ExtrudeOutcome.tempUnavailable, [Cmd.m105])
      | some t =>
          let preCmds : Option (List Cmd) :=
            if t < 210 then
              match heat_hotend heatReadings with
              | some k =>
                  some ([Cmd.m105, Cmd.m104s 210] ++ List.replicate (k + 1) Cmd.m105)
              | none => none
            else some [Cmd.m105]
          match preCmds with
          | none => none
          | some pre =>
              some (ExtrudeOutcome.extruded len,
                pre ++ [Cmd.m302, Cmd.g1ef 5 300, Cmd.g1ef len 300])
  else some (ExtrudeOutcome.noConnection, [])

/-- Calibration-layer failure: the uncaught
`ValueError("Invalid extrusion measurement.")` of
`adjust_extrusion_factor`. -/
inductive CalibError where
  | invalidMeasurement
deriving DecidableEq, Repr

/-- `ExtrusionCalibrationTab.adjust_extrusion_factor`
(src/ui/extrusion_calibration_tab.py lines 175-199): from the second
measurement pair compute `actual_extruded`; raise when `<= 0`; else
read the current steps (the M503 exchange of
`get_current_extruder_steps`, whose parsed value is the `currentSteps`
argument), compute `new_steps = current_steps * (100 / actual)`, send
`M92 E{new_steps:.2f}` then `M500`, and report `new_steps`. -/
def adjust_extrusion_factor (init rem currentSteps : ℚ) :
    Except CalibError (List Cmd × ℚ) :=
  let actual := init - rem
  if actual ≤ 0 then Except.error CalibError.invalidMeasurement
  else
    let factor := 100 / actual
    let newSteps := currentSteps * factor
    Except.ok ([Cmd.m503, Cmd.m92e newSteps, Cmd.m500], newSteps)

example : classifyLine "a: b" = ("a", "b") := by decide
example : classifyLine "a=b" = ("a", "b") := by decide
example : classifyLine "a:b=c" = ("a", "b=c") := by decide
example : classifyLine "plain" = ("plain", "") := by decide
example : send_gcode true " M105" true = (some "M105\n", some "Sent:  M105") := by decide
example : connect_to_printer ["A", "B", "C"] (fun s => s == "B") =
    ConnectResult.connected "B" ["A", "B"] := by decide
example : fmt2 800 = "800.00" := by
  have h : Int.floor ((800 : ℚ) * 100 + 1 / 2) = 80000 := by norm_num
  rw [fmt2, h]
  decide
example : adjust_extrusion_factor 60 10 400 =
    Except.ok ([Cmd.m503, Cmd.m92e 800, Cmd.m500], 800) := by
  norm_num [adjust_extrusion_factor]
example : extrude_length true 25 10 (some 215) [] =
    some (ExtrudeOutcome.extruded 15,
      [Cmd.m105, Cmd.m302, Cmd.g1ef 5 300, Cmd.g1ef 15 300]) := by
  norm_num [extrude_length]
example : extrude_length true 15 10 (some 215) [] =
    some (ExtrudeOutcome.invalidMeasurement, []) := by
  norm_num [extrude_length]
example : heat_hotend [some 100, none, some 215] = some 2 := by
  norm_num [heat_hotend]

example : pyStrip "  ok T:205.3  " = "ok T:205.3" := by decide

lemma containsList_single_iff (c : Char) (cs : List Char) :
    containsList [c] cs = true ↔ c ∈ cs := by
  induction cs with
  | nil => simp [containsList, startsWithList]
  | cons d ds ih =>
      simp only [containsList, startsWithList, Bool.and_true, Bool.or_eq_true,
        beq_iff_eq, List.mem_cons, ih]

lemma splitFirstAux_some_of_mem (sep : Char) (cs : List Char) (h : sep ∈ cs) :
    ∃ l r, splitFirstAux sep cs = some (l, r) := by
  induction cs with
  | nil => simp at h
  | cons c cs ih =>
      rw [splitFirstAux]
      by_cases hc : c = sep
      · exact ⟨[], cs, by rw [if_pos hc]⟩
      · have hm : sep ∈ cs := by
          rcases List.mem_cons.mp h with h1 | h1
          · exact absurd h1.symm hc
          · exact h1
        obtain ⟨l, r, hs⟩ := ih hm
        exact ⟨c :: l, r, by rw [if_neg hc, hs]⟩

lemma splitFirstAux_some_structure (sep : Char) (cs : List Char) :
    ∀ l r, splitFirstAux sep cs = some (l, r) → cs = l ++ sep :: r ∧ sep ∉ l := by
  induction cs with
  | nil => intro l r h; simp [splitFirstAux] at h
  | cons c cs ih =>
      intro l r h
      rw [splitFirstAux] at h
      by_cases hc : c = sep
      · rw [if_pos hc] at h
        obtain ⟨h1, h2⟩ := Prod.mk.injEq .. ▸ (Option.some.injEq .. ▸ h)
        subst h1; subst h2
        exact ⟨by simp [hc], by simp⟩
      · rw [if_neg hc] at h
        cases hs : splitFirstAux sep cs with
        | none => rw [hs] at h; simp at h
        | some lr =>
            obtain ⟨l', r'⟩ := lr
            rw [hs] at h
            simp only [Option.some.injEq, Prod.mk.injEq] at h
            obtain ⟨h1, h2⟩ := h
            subst h1; subst h2
            obtain ⟨hcs, hnot⟩ := ih l' r' hs
            refine ⟨by rw [hcs]; rfl, ?_⟩
            simp only [List.mem_cons, not_or]
            exact ⟨fun hh => hc hh.symm, hnot⟩

/-- C2.  The inventory key/value heuristic of `refresh_treeview` splits a
line on the first ":" (stripping both sides), else on the first "=",
else keeps the whole line as key with an empty value; the four spec
examples evaluate as stated. -/
theorem c2_inventory_key_value_heuristic (line : String) :
    (strHasSub line ":" = true →
      ∃ pre post : String, line.data = pre.data ++ ':' :: post.data ∧
        strHasSub pre ":" = false ∧
        classifyLine line = (pyStrip pre, pyStrip post)) ∧
    (strHasSub line ":" = false → strHasSub line "=" = true →
      ∃ pre post : String, line.data = pre.data ++ '=' :: post.data ∧
        strHasSub pre "=" = false ∧
        classifyLine line = (pyStrip pre, pyStrip post)) ∧
    (strHasSub line ":" = false → strHasSub line "=" = false →
      classifyLine line = (line, "")) ∧
    classifyLine "a: b" = ("a", "b") ∧
    classifyLine "a=b" = ("a", "b") ∧
    classifyLine "a:b=c" = ("a", "b=c") ∧
    classifyLine "plain" = ("plain", "") := by
  refine ⟨?_, ?_, ?_, by decide, by decide, by decide, by decide⟩
  · intro h
    have hmem : ':' ∈ line.data := by
      have := (containsList_single_iff ':' line.data).mp h
      exact this
    obtain ⟨l, r, hs⟩ := splitFirstAux_some_of_mem ':' line.data hmem
    obtain ⟨hcat, hnot⟩ := splitFirstAux_some_structure ':' line.data l r hs
    refine ⟨String.mk l, String.mk r, ?_, ?_, ?_⟩
    · exact hcat
    · have : containsList [':'] l = false := by
        rcases hb : containsList [':'] l with _ | _
        · rfl
        · exact absurd ((containsList_single_iff ':' l).mp hb) hnot
      exact this
    · rw [classifyLine, if_pos h, hs]
  · intro h1 h2
    have hmem : '=' ∈ line.data := (containsList_single_iff '=' line.data).mp h2
    obtain ⟨l, r, hs⟩ := splitFirstAux_some_of_mem '=' line.data hmem
    obtain ⟨hcat, hnot⟩ := splitFirstAux_some_structure '=' line.data l r hs
    refine ⟨String.mk l, String.mk r, ?_, ?_, ?_⟩
    · exact hcat
    · have : containsList ['='] l = false := by
        rcases hb : containsList ['='] l with _ | _
        · rfl
        · exact absurd ((containsList_single_iff '=' l).mp hb) hnot
      exact this
    · rw [classifyLine, if_neg (by rw [h1]; exact Bool.false_ne_true), if_pos h2, hs]
  · intro h1 h2
    rw [classifyLine, if_neg (by rw [h1]; exact Bool.false_ne_true),
      if_neg (by rw [h2]; exact Bool.false_ne_true)]

/-- Witness for C2 at the line `"a:b=c"`. -/
theorem c2_inventory_key_value_heuristic_witness :
    ∃ pre post : String, ("a:b=c").data = pre.data ++ ':' :: post.data ∧
      strHasSub pre ":" = false ∧
      classifyLine "a:b=c" = (pyStrip pre, pyStrip post) :=
  (c2_inventory_key_value_heuristic "a:b=c").1 (by decide)

lemma isTerminal_empty : isTerminal "" = false := by decide

lemma readResponseGo_ok_invariant (evs : List ReadEvent) :
    ∀ (acc lines : List String), "" ∉ acc →
      readResponseGo evs acc = some (RecvOutcome.ok lines) →
      "" ∉ lines ∧
        ((∃ l, lines.getLast? = some l ∧ isTerminal l = true) ∨
          ReadEvent.readErr ∈ evs) := by
  induction evs with
  | nil => intro acc lines hacc h; simp [readResponseGo] at h
  | cons e rest ih =>
      intro acc lines hacc h
      cases e with
      | readErr =>
          rw [readResponseGo] at h
          simp only [Option.some.injEq, RecvOutcome.ok.injEq] at h
          subst h
          refine ⟨by simpa using hacc, Or.inr (by simp)⟩
      | badBytes =>
          rw [readResponseGo] at h
          simp at h
      | line s =>
          rw [readResponseGo] at h
          by_cases ht : isTerminal (pyStrip s) = true
          · rw [if_pos ht] at h
            have hne : pyStrip s ≠ "" := by
              intro he
              rw [he, isTerminal_empty] at ht
              exact Bool.false_ne_true ht
            rw [if_neg hne] at h
            simp only [Option.some.injEq, RecvOutcome.ok.injEq] at h
            subst h
            constructor
            · simp only [List.reverse_cons, List.mem_append, List.mem_reverse,
                List.mem_singleton]
              rintro (hm | hm)
              · exact hacc hm
              · exact hne hm.symm
            · refine Or.inl ⟨pyStrip s, ?_, ht⟩
              simp [List.getLast?_concat]
          · rw [if_neg ht] at h
            by_cases he : pyStrip s = ""
            · rw [if_pos he] at h
              obtain ⟨h1, h2⟩ := ih acc lines hacc h
              exact ⟨h1, h2.imp id (by simp +contextual)⟩
            · rw [if_neg he] at h
              have hacc' : "" ∉ pyStrip s :: acc := by
                simp only [List.mem_cons, not_or]
                exact ⟨fun hh => he hh.symm, hacc⟩
              obtain ⟨h1, h2⟩ := ih (pyStrip s :: acc) lines hacc' h
              exact ⟨h1, h2.imp id (by simp +contextual)⟩

/-- C3.  Every list of lines returned by `read_response` either ends
with a terminal line (case-insensitive "ok"/"error" substring) or is
empty/partial only because the transport raised a read error mid-read,
and empty lines are never part of the result. -/
theorem c3_receive_until_terminal (evs : List ReadEvent) (lines : List String)
    (h : read_response (some evs) = some (RecvOutcome.ok lines)) :
    "" ∉ lines ∧
      ((∃ l, lines.getLast? = some l ∧ isTerminal l = true) ∨
        ReadEvent.readErr ∈ evs) :=
  readResponseGo_ok_invariant evs [] lines (by simp) h

/-- Witness for C3 on a two-line exchange ending in "ok". -/
theorem c3_receive_until_terminal_witness :
    "" ∉ ["T:100", "ok"] ∧
      ((∃ l, (["T:100", "ok"] : List String).getLast? = some l ∧
          isTerminal l = true) ∨
        ReadEvent.readErr ∈
          [ReadEvent.line " T:100 ", ReadEvent.line "", ReadEvent.line "ok"]) :=
  c3_receive_until_terminal
    [ReadEvent.line " T:100 ", ReadEvent.line "", ReadEvent.line "ok"]
    ["T:100", "ok"] (by decide)

lemma parseGo_all_lines (ls : List String) :
    ∀ acc, parseGo (ls.map ReadEvent.line) acc =
      DrainOutcome.ok (acc.reverse ++ ls.map pyStrip) := by
  induction ls with
  | nil => intro acc; simp [parseGo]
  | cons s ss ih =>
      intro acc
      rw [List.map_cons, parseGo, ih]
      simp

/-- C10.  The non-blocking drain returns every buffered line (stripped),
including empty lines and lines after a terminal one; it returns the
empty list with no open connection.  The final conjunct contrasts the
blocking collector on the same buffer, which filters the empty line and
stops at the terminal line. -/
theorem c10_nonblocking_drain_returns_everything :
    (∀ ls : List String,
      parse_gcode_response (some (ls.map ReadEvent.line)) =
        DrainOutcome.ok (ls.map pyStrip)) ∧
    parse_gcode_response none = DrainOutcome.ok [] ∧
    parse_gcode_response (some [ReadEvent.line "ok", ReadEvent.line "",
      ReadEvent.line "after"]) = DrainOutcome.ok ["ok", "", "after"] ∧
    read_response (some [ReadEvent.line "ok", ReadEvent.line "",
      ReadEvent.line "after"]) = some (RecvOutcome.ok ["ok"]) := by
  refine ⟨?_, rfl, by decide, by decide⟩
  intro ls
  show parseGo (ls.map ReadEvent.line) [] = DrainOutcome.ok (ls.map pyStrip)
  rw [parseGo_all_lines]
  simp

lemma connectLoop_all_fail (opens : String → Bool) :
    ∀ (ports tried : List String), (∀ p ∈ ports, opens p = false) →
      connectLoop opens ports tried =
        ConnectResult.allPortsFailed (tried.reverse ++ ports) := by
  intro ports
  induction ports with
  | nil => intro tried h; simp [connectLoop]
  | cons p ps ih =>
      intro tried h
      rw [connectLoop, if_neg (by simp [h p (List.mem_cons_self p ps)]),
        ih (p :: tried) (fun q hq => h q (List.mem_cons_of_mem p hq))]
      simp

lemma connectLoop_first_success (opens : String → Bool) :
    ∀ (pre : List String) (p : String) (post tried : List String),
      (∀ q ∈ pre, opens q = false) → opens p = true →
      connectLoop opens (pre ++ p :: post) tried =
        ConnectResult.connected p (tried.reverse ++ (pre ++ [p])) := by
  intro pre
  induction pre with
  | nil =>
      intro p post tried h hp
      rw [List.nil_append, connectLoop, if_pos hp]
      simp
  | cons q qs ih =>
      intro p post tried h hp
      rw [List.cons_append, connectLoop,
        if_neg (by simp [h q (List.mem_cons_self q qs)]),
        ih p post (q :: tried) (fun x hx => h x (List.mem_cons_of_mem q hx)) hp]
      simp

lemma connect_to_printer_ne_nil (ports : List String) (opens : String → Bool)
    (h : ports ≠ []) : connect_to_printer ports opens = connectLoop opens ports [] := by
  cases ports with
  | nil => exact absurd rfl h
  | cons p ps => rfl

/-- C6.  `connect_to_printer` fails with no-ports-found on an empty
candidate list, connects on the first port that opens without
attempting later candidates, and fails with all-ports-failed after
attempting every candidate when none opens; for ports A, B, C where
only B accepts, the session's port is B and C is never attempted. -/
theorem c6_connect_first_success (ports : List String) (opens : String → Bool) :
    (ports = [] → connect_to_printer ports opens = ConnectResult.noPortsFound) ∧
    (∀ pre p post, ports = pre ++ p :: post → (∀ q ∈ pre, opens q = false) →
      opens p = true →
      connect_to_printer ports opens = ConnectResult.connected p (pre ++ [p])) ∧
    ((∀ p ∈ ports, opens p = false) → ports ≠ [] →
      connect_to_printer ports opens = ConnectResult.allPortsFailed ports) ∧
    connect_to_printer ["A", "B", "C"] (fun s => s == "B") =
      ConnectResult.connected "B" ["A", "B"] ∧
    "C" ∉ (["A", "B"] : List String) := by
  refine ⟨?_, ?_, ?_, by decide, by decide⟩
  · intro h; subst h; rfl
  · intro pre p post hq h hp
    subst hq
    rw [connect_to_printer_ne_nil _ _ (by simp),
      connectLoop_first_success opens pre p post [] h hp]
    simp
  · intro h hne
    rw [connect_to_printer_ne_nil _ _ hne, connectLoop_all_fail opens ports [] h]
    simp

/-- Witness for C6 at ports A, B, C where only B opens. -/
theorem c6_connect_first_success_witness :
    connect_to_printer ["A", "B", "C"] (fun s => s == "B") =
      ConnectResult.connected "B" (["A"] ++ ["B"]) :=
  (c6_connect_first_success ["A", "B", "C"] (fun s => s == "B")).2.1
    ["A"] "B" ["C"] rfl (by decide) (by decide)

lemma heat_hotend_none (readings : List (Option ℚ))
    (h : ∀ (j : ℕ) (u : ℚ), readings[j]? = some (some u) → u < 210) :
    heat_hotend readings = none := by
  induction readings with
  | nil => rfl
  | cons r rest ih =>
      have hrest : ∀ (j : ℕ) (u : ℚ), rest[j]? = some (some u) → u < 210 := by
        intro j u hu
        exact h (j + 1) u (by simpa using hu)
      cases r with
      | none => rw [heat_hotend, ih hrest]; rfl
      | some u =>
          have hu : u < 210 := h 0 u (by simp)
          rw [heat_hotend, if_neg (not_le.mpr hu), ih hrest]
          rfl

lemma heat_hotend_first_success (readings : List (Option ℚ)) :
    ∀ (k : ℕ) (t : ℚ), readings[k]? = some (some t) → 210 ≤ t →
      (∀ j, j < k → ∀ u : ℚ, readings[j]? = some (some u) → u < 210) →
      heat_hotend readings = some k := by
  induction readings with
  | nil => intro k t hk; simp at hk
  | cons r rest ih =>
      intro k t hk ht hbefore
      cases k with
      | zero =>
          simp only [List.getElem?_cons_zero, Option.some.injEq] at hk
          subst hk
          rw [heat_hotend, if_pos ht]
      | succ k =>
          have hk' : rest[k]? = some (some t) := by simpa using hk
          have hb' : ∀ j, j < k → ∀ u : ℚ, rest[j]? = some (some u) → u < 210 := by
            intro j hj u hu
            exact hbefore (j + 1) (by omega) u (by simpa using hu)
          cases r with
          | none => rw [heat_hotend, ih k t hk' ht hb']; rfl
          | some u =>
              have hu : u < 210 := hbefore 0 (by omega) u (by simp)
              rw [heat_hotend, if_neg (not_le.mpr hu), ih k t hk' ht hb']
              rfl

/-- C8.  With a connection, valid measurements and an initial reading
below 210, the workflow sends "M104 S210" and polls once per interval;
it never reaches the priming commands while every available reading is
below 210 (a printer that never heats loops forever, modelled as the
run not returning), and it proceeds to priming (M302, prime move,
extrusion) exactly when the first reading at or above 210 is observed —
unavailable readings just keep the loop polling. -/
theorem c8_heating_wait (init rem t : ℚ) (readings : List (Option ℚ))
    (hlen : ¬ init - rem < 10) (ht : t < 210) :
    ((∀ (j : ℕ) (u : ℚ), readings[j]? = some (some u) → u < 210) →
      extrude_length true init rem (some t) readings = none) ∧
    (∀ (k : ℕ) (u : ℚ), readings[k]? = some (some u) → 210 ≤ u →
      (∀ j, j < k → ∀ v : ℚ, readings[j]? = some (some v) → v < 210) →
      extrude_length true init rem (some t) readings =
        some (ExtrudeOutcome.extruded (init - rem),
          ([Cmd.m105, Cmd.m104s 210] ++ List.replicate (k + 1) Cmd.m105) ++
            [Cmd.m302, Cmd.g1ef 5 300, Cmd.g1ef (init - rem) 300])) := by
  constructor
  · intro hall
    rw [extrude_length, if_pos rfl]
    simp only [if_neg hlen, if_pos ht, heat_hotend_none readings hall]
  · intro k u hk hu hbefore
    rw [extrude_length, if_pos rfl]
    simp only [if_neg hlen, if_pos ht,
      heat_hotend_first_success readings k u hk hu hbefore]

/-- Witness for C8: readings 100, unavailable, 215 reach temperature on
the third poll. -/
theorem c8_heating_wait_witness :
    extrude_length true 25 10 (some 100) [some 100, none, some 215] =
      some (ExtrudeOutcome.extruded (25 - 10),
        ([Cmd.m105, Cmd.m104s 210] ++ List.replicate (2 + 1) Cmd.m105) ++
          [Cmd.m302, Cmd.g1ef 5 300, Cmd.g1ef (25 - 10) 300]) :=
  (c8_heating_wait 25 10 100 [some 100, none, some 215] (by norm_num)
      (by norm_num)).2 2 215 rfl (by norm_num)
    (by
      intro j hj v hv
      interval_cases j
      · simp only [List.getElem?_cons_zero, Option.some.injEq] at hv
        rw [← hv]
        norm_num
      · simp at hv)

/-- C4.  The extrusion step rejects with the invalid-measurement error
exactly when `initial - remaining < 10`, sending no commands in that
case; the spec's two example measurement pairs behave as stated
(the 25/10 pair proceeds through priming to the extrusion move). -/
theorem c4_measurement_gate (init rem : ℚ) (gateTemp : Option ℚ)
    (readings : List (Option ℚ)) :
    (init - rem < 10 →
      extrude_length true init rem gateTemp readings =
        some (ExtrudeOutcome.invalidMeasurement, [])) ∧
    (¬ init - rem < 10 → ∀ out cmds,
      extrude_length true init rem gateTemp readings = some (out, cmds) →
      out ≠ ExtrudeOutcome.invalidMeasurement) ∧
    (∀ gt rds, extrude_length true 15 10 gt rds =
      some (ExtrudeOutcome.invalidMeasurement, [])) ∧
    extrude_length true 25 10 (some 215) [] =
      some (ExtrudeOutcome.extruded 15,
        [Cmd.m105, Cmd.m302, Cmd.g1ef 5 300, Cmd.g1ef 15 300]) := by
  refine ⟨?_, ?_, ?_, by norm_num [extrude_length]⟩
  · intro hlen
    rw [extrude_length, if_pos rfl, if_pos hlen]
  · intro hlen out cmds h
    rw [extrude_length, if_pos rfl] at h
    rw [if_neg hlen] at h
    cases gateTemp with
    | none =>
        simp only [Option.some.injEq, Prod.mk.injEq] at h
        rw [← h.1]
        simp
    | some t =>
        by_cases ht : t < 210
        · cases hh : heat_hotend readings with
          | none => simp only [if_pos ht, hh] at h; exact absurd h (by simp)
          | some k =>
              simp only [if_pos ht, hh, Option.some.injEq, Prod.mk.injEq] at h
              rw [← h.1]
              simp
        · simp only [if_neg ht, Option.some.injEq, Prod.mk.injEq] at h
          rw [← h.1]
          simp
  · intro gt rds
    rw [extrude_length, if_pos rfl, if_pos (by norm_num)]

/-- Witness for C4 at the rejected 15/10 measurement pair. -/
theorem c4_measurement_gate_witness :
    extrude_length true 15 10 (some 215) [] =
      some (ExtrudeOutcome.invalidMeasurement, []) :=
  (c4_measurement_gate 15 10 (some 215) []).1 (by norm_num)

/-- C5.  The steps adjustment fails with the invalid-measurement error
when `actual_extruded <= 0` and otherwise deterministically sends
"M92 E" with the new steps formatted to two decimals, followed by
"M500", reporting `new_steps = current_steps * (100 / actual)`; with
`actual_extruded = 50` the factor is 2 and 400 steps become 800.00. -/
theorem c5_adjust_extrusion_factor (init rem steps : ℚ) :
    (init - rem ≤ 0 →
      adjust_extrusion_factor init rem steps =
        Except.error CalibError.invalidMeasurement) ∧
    (0 < init - rem →
      adjust_extrusion_factor init rem steps =
        Except.ok ([Cmd.m503, Cmd.m92e (steps * (100 / (init - rem))), Cmd.m500],
          steps * (100 / (init - rem)))) ∧
    (100 / ((60 : ℚ) - 10) = 2) ∧
    adjust_extrusion_factor 60 10 400 =
      Except.ok ([Cmd.m503, Cmd.m92e 800, Cmd.m500], 800) ∧
    renderM92 800 = "M92 E800.00" := by
    refine ⟨?_, ?_, by norm_num, by norm_num [adjust_extrusion_factor], ?_⟩
    · intro h
      rw [adjust_extrusion_factor, if_pos h]
    · intro h
      rw [adjust_extrusion_factor, if_neg (not_le.mpr h)]
    · rw [renderM92, fmt2,
        show Int.floor ((800 : ℚ) * 100 + 1 / 2) = 80000 by norm_num]
      decide

/-- Witness for C5 at the 60/10 measurement pair with 400 steps. -/
theorem c5_adjust_extrusion_factor_witness :
    adjust_extrusion_factor 60 10 400 =
      Except.ok ([Cmd.m503, Cmd.m92e (400 * (100 / ((60 : ℚ) - 10))), Cmd.m500],
        400 * (100 / ((60 : ℚ) - 10))) :=
  (c5_adjust_extrusion_factor 60 10 400).2.1 (by norm_num)

/-- Counterexample for C9: the source strips the command before
writing, so the command " M105" is not written verbatim. -/
theorem c9_counterexample :
    (send_gcode true " M105" true).1 = some "M105\n" ∧
    (some ("M105\n") : Option String) ≠ some (" M105" ++ "\n") := by
  refine ⟨by decide, by decide⟩

/-- C9 as amended.  With no open connection `send_gcode` is a silent
no-op; with an open connection it writes the whitespace-stripped
command followed by a single line terminator (so verbatim exactly for
commands without surrounding whitespace) and, when a callback is
attached, logs "Sent: " followed by the original command. -/
theorem c9_send_gcode_amended (gcode : String) (hasCallback : Bool) :
    send_gcode false gcode hasCallback = (none, none) ∧
    (send_gcode true gcode hasCallback).1 = some (pyStrip gcode ++ "\n") ∧
    (send_gcode true gcode true).2 = some ("Sent: " ++ gcode) ∧
    (send_gcode true gcode false).2 = none ∧
    (pyStrip gcode = gcode →
      (send_gcode true gcode hasCallback).1 = some (gcode ++ "\n")) := by
    refine ⟨rfl, rfl, rfl, rfl, ?_⟩
    intro h
    rw [show (send_gcode true gcode hasCallback).1 = some (pyStrip gcode ++ "\n")
      from rfl, h]

/-- Witness for C9 (amended) at the command "M105". -/
theorem c9_send_gcode_amended_witness :
    (send_gcode true "M105" true).1 = some ("M105" ++ "\n") :=
  (c9_send_gcode_amended "M105" true).2.2.2.2 (by decide)

lemma readResponseGo_badBytes :
    ∀ (pre post : List ReadEvent) (acc : List String),
      (∀ e ∈ pre, ∃ s, e = ReadEvent.line s ∧ isTerminal (pyStrip s) = false) →
      readResponseGo (pre ++ ReadEvent.badBytes :: post) acc =
        some RecvOutcome.decodeError := by
  intro pre
  induction pre with
  | nil => intro post acc h; rfl
  | cons e rest ih =>
      intro post acc h
      obtain ⟨s, he, hterm⟩ := h e (List.mem_cons_self e rest)
      subst he
      rw [List.cons_append, readResponseGo]
      rw [if_neg (by simp [hterm])]
      exact ih post _ (fun x hx => h x (List.mem_cons_of_mem _ hx))

lemma parseGo_badBytes :
    ∀ (pre post : List ReadEvent) (acc : List String),
      (∀ e ∈ pre, ∃ s, e = ReadEvent.line s) →
      parseGo (pre ++ ReadEvent.badBytes :: post) acc = DrainOutcome.raised := by
  intro pre
  induction pre with
  | nil => intro post acc h; rfl
  | cons e rest ih =>
      intro post acc h
      obtain ⟨s, he⟩ := h e (List.mem_cons_self e rest)
      subst he
      rw [List.cons_append, parseGo]
      exact ih post _ (fun x hx => h x (List.mem_cons_of_mem _ hx))

/-- Counterexample for C7: an undecodable line makes both receive
operations raise (the decoding error propagates); the line is not
dropped and no result is returned. -/
theorem c7_counterexample :
    read_response (some [ReadEvent.line "x", ReadEvent.badBytes,
      ReadEvent.line "ok"]) = some RecvOutcome.decodeError ∧
    (some RecvOutcome.decodeError ≠ some (RecvOutcome.ok ["x", "ok"])) ∧
    parse_gcode_response (some [ReadEvent.badBytes]) = DrainOutcome.raised ∧
    DrainOutcome.raised ≠ DrainOutcome.ok [] := by
  refine ⟨by decide, by decide, by decide, by decide⟩

/-- C7 as amended.  In both receive operations a line whose bytes cannot
be decoded is not dropped: the decoding error escapes the call (the
blocking collector catches only transport read errors, the non-blocking
drain catches nothing), provided the collector is still reading when
the bad line arrives. -/
theorem c7_decode_error_propagates (pre post : List ReadEvent) :
    ((∀ e ∈ pre, ∃ s, e = ReadEvent.line s ∧ isTerminal (pyStrip s) = false) →
      read_response (some (pre ++ ReadEvent.badBytes :: post)) =
        some RecvOutcome.decodeError) ∧
    ((∀ e ∈ pre, ∃ s, e = ReadEvent.line s) →
      parse_gcode_response (some (pre ++ ReadEvent.badBytes :: post)) =
        DrainOutcome.raised) := by
  constructor
  · intro h
    exact readResponseGo_badBytes pre post [] h
  · intro h
    exact parseGo_badBytes pre post [] h

/-- Witness for C7 (amended): a non-terminal line followed by
undecodable bytes. -/
theorem c7_decode_error_propagates_witness :
    read_response (some ([ReadEvent.line "x"] ++ ReadEvent.badBytes ::
      [ReadEvent.line "ok"])) = some RecvOutcome.decodeError ∧
    parse_gcode_response (some ([ReadEvent.line "x"] ++ ReadEvent.badBytes ::
      [ReadEvent.line "ok"])) = DrainOutcome.raised :=
  ⟨(c7_decode_error_propagates [ReadEvent.line "x"] [ReadEvent.line "ok"]).1
      (by
        intro e he
        simp only [List.mem_singleton] at he
        exact ⟨"x", he, by decide⟩),
    (c7_decode_error_propagates [ReadEvent.line "x"] [ReadEvent.line "ok"]).2
      (by
        intro e he
        simp only [List.mem_singleton] at he
        exact ⟨"x", he⟩)⟩

/-- C1 (code bug).  On the collected M105 reply
"ok T:205.3 /210 B:60 /60" the temperature read returns the entire
matching line, not the numeric value 205.3 following "T:" that the
specification states (and that the numeric comparisons in
`extrude_length` and `heat_hotend` require); when no collected line
contains "T:" it does return the unavailable result (`none`). -/
theorem c1_temperature_read_returns_whole_line :
    check_hotend_temperature
        (some [ReadEvent.line "ok T:205.3 /210 B:60 /60"]) =
      QueryResult.ok (some "ok T:205.3 /210 B:60 /60") ∧
    (some ("ok T:205.3 /210 B:60 /60") : Option String) ≠ some ("205.3") ∧
    check_hotend_temperature
        (some [ReadEvent.line "ok B:60 /60", ReadEvent.line "ok"]) =
      QueryResult.ok none := by
  refine ⟨by decide, by decide, by decide⟩
example : isTerminal "ok T:205.3" = true := by decide
example : isTerminal "" = false := by decide
example : isTerminal "Error:heater" = true := by decide
example : isTerminal "echo:busy" = false := by decide
example : read_response (some [ReadEvent.line " x ", ReadEvent.line "ok"]) =
    some (RecvOutcome.ok ["x", "ok"]) := by decide
example : parse_gcode_response (some [ReadEvent.line "ok", ReadEvent.line "",
    ReadEvent.line "after"]) = DrainOutcome.ok ["ok", "", "after"] := by decide
example : check_hotend_temperature
    (some [ReadEvent.line "ok T:205.3 /210 B:60 /60"]) =
    QueryResult.ok (some "ok T:205.3 /210 B:60 /60") := by decide

end Puffer
